import Mathlib

/-!
Shallow embedding of the asynchronous job-handle lifecycle and the fan-out
related-resource resolver of the cognite experimental SDK
(`cognite/experimental/data_classes/contextualization.py` and
`cognite/experimental/data_classes/assets.py`), together with proofs of the
behavioural claims made by the specification.

Python dynamic values are modelled by the small `Val` type; Python dicts (in
particular JSON poll responses and result payloads) by insertion-ordered
association lists `Dict := List (String × Val)`.  Network interaction is made
explicit: a poll loop receives the list of successive poll responses, and a
call that would raise `KeyError` or would poll forever on an exhausted
response list is modelled by `Option.none`.
-/

namespace CogniteExperimental

/-- A dynamically typed Python/JSON value: null, string, or integer. -/
inductive Val where
  | vnull : Val
  | vstr : String → Val
  | vint : Int → Val
deriving DecidableEq, Repr

/-- A Python dict with string keys, as an insertion-ordered association list. -/
abbrev Dict := List (String × Val)

/-- Python `d.get(k)`: the value at key `k`, or `None` when absent. -/
def Dict.get (d : Dict) (k : String) : Option Val :=
  (List.find? (fun p => p.1 == k) d).map (fun p => p.2)

/-- Python truthiness of a `Val`: null, the empty string and `0` are falsy. -/
def Val.truthy : Val → Bool
  | .vnull => false
  | .vstr s => s ≠ ""
  | .vint n => n ≠ 0

/-- Python truthiness of an attribute that is either `None` or holds a `Val`. -/
def optTruthy : Option Val → Bool
  | none => false
  | some v => v.truthy

/-- Python `a or b` on two optional values: `a` when truthy, else `b`. -/
def pyOr (a b : Option Val) : Option Val :=
  if optTruthy a then a else b

/-- `ContextualizationJob._COMMON_FIELDS`: the common status fields excluded
from the cached result payload. -/
def ContextualizationJob_COMMON_FIELDS : List String :=
  ["status", "jobId", "errorMessage", "requestTimestamp", "startTimestamp", "statusTimestamp"]

/-- `EntityMatchingPipelineRun._COMMON_FIELDS`, built in the source as the set
intersection `ContextualizationJob._COMMON_FIELDS & {"pipeline_id"}`. -/
def EntityMatchingPipelineRun_COMMON_FIELDS : List String :=
  ContextualizationJob_COMMON_FIELDS.filter (fun k => k ∈ ["pipeline_id"])

/-- The mutable state of a `ContextualizationJob` handle: each attribute is
`None` or a value, and `result` models the `_result` cache (`None` until the
first `update_status`). -/
structure ContextualizationJob where
  job_id : Option Val
  status : Option Val
  request_timestamp : Option Val
  start_timestamp : Option Val
  status_timestamp : Option Val
  error_message : Option Val
  result : Option Dict
deriving DecidableEq, Repr

/-- A freshly constructed job handle with the given id and all other
attributes `None`. -/
def ContextualizationJob.fresh (job_id : Option Val) : ContextualizationJob :=
  ⟨job_id, none, none, none, none, none, none⟩

/-- The `ModelFailedException` raised on a `Failed` terminal status: it
carries the handle's class name, its id, and the server error message. -/
structure ModelFailedException where
  klass : String
  id : Option Val
  message : Option Val
deriving DecidableEq, Repr

/-- `ContextualizationJob.update_status` applied to one poll response `data`,
parameterised by the class's `_COMMON_FIELDS` (the subclass
`EntityMatchingPipelineRun` overrides it).  `data["status"]` raises `KeyError`
when the key is absent, modelled by `none`; otherwise the handle is mutated:
status is overwritten, `statusTimestamp`/`startTimestamp`/`errorMessage` are
overwritten by `data.get` (null when omitted), `request_timestamp` keeps its
old value when truthy (`self.request_timestamp or data.get(...)`), and
`_result` caches every response field whose key is not a common field. -/
def update_status (common : List String) (j : ContextualizationJob) (data : Dict) :
    Option (ContextualizationJob × Val) :=
  match Dict.get data "status" with
  | none => none
  | some st =>
    some ({ j with
      status := some st
      status_timestamp := Dict.get data "statusTimestamp"
      start_timestamp := Dict.get data "startTimestamp"
      request_timestamp := pyOr j.request_timestamp (Dict.get data "requestTimestamp")
      error_message := Dict.get data "errorMessage"
      result := some (data.filter (fun p => decide (p.1 ∉ common))) }, st)

/-- `ContextualizationJob.wait_for_completion` run against the list of
successive poll responses.  It repeats `update_status` while the status is
`Queued` or `Running`; on a terminal status it raises `ModelFailedException`
when the status is `Failed` and otherwise returns the handle together with
the number of polls consumed.  Exhausting the response list (the real loop
would keep polling) and a malformed response are modelled by `none`. -/
def wait_for_completion (common : List String) (klass : String)
    (j : ContextualizationJob) :
    List Dict → Option (Except ModelFailedException (ContextualizationJob × Nat))
  | [] => none
  | data :: rest =>
    match update_status common j data with
    | none => none
    | some (j', st) =>
      if st = Val.vstr "Queued" ∨ st = Val.vstr "Running" then
        match wait_for_completion common klass j' rest with
        | none => none
        | some (Except.error e) => some (Except.error e)
        | some (Except.ok (j'', n)) => some (Except.ok (j'', n + 1))
      else if st = Val.vstr "Failed" then
        some (Except.error ⟨klass, j'.job_id, j'.error_message⟩)
      else
        some (Except.ok (j', 1))

/-- Python truthiness of the `_result` cache: falsy when `None` or an empty
dict (`if not self._result`). -/
def resultTruthy : Option Dict → Bool
  | none => false
  | some d => !List.isEmpty d

/-- The `ContextualizationJob.result` property: when the cached `_result` is
falsy it runs `wait_for_completion` and then returns the cache; otherwise it
returns the cache with zero polls issued.  The returned triple is the handle
after the access, the payload returned, and the number of polls consumed. -/
def result_access (common : List String) (klass : String)
    (j : ContextualizationJob) (polls : List Dict) :
    Option (Except ModelFailedException (ContextualizationJob × Option Dict × Nat)) :=
  if resultTruthy j.result then
    some (Except.ok (j, j.result, 0))
  else
    match wait_for_completion common klass j polls with
    | none => none
    | some (Except.error e) => some (Except.error e)
    | some (Except.ok (j', n)) => some (Except.ok (j', j'.result, n))

/-- `convert_true_match`'s input: a dict already in object form, or a Python
sequence (list/tuple) of values. -/
inductive TrueMatch where
  | dict : Dict → TrueMatch
  | seq : List Val → TrueMatch
deriving DecidableEq, Repr

/-- One iteration of the loop `for i, fromto in enumerate(["from", "to"])`:
the entry gets key `fromto + "ExternalId"` when the element is a string and
`fromto + "Id"` otherwise. -/
def fromToEntry (fromto : String) (v : Val) : String × Val :=
  match v with
  | .vstr s => (fromto ++ "ExternalId", .vstr s)
  | v => (fromto ++ "Id", v)

/-- `convert_true_match`: a non-dict input of length two is converted to an
object with from/to keys chosen by `fromToEntry`; every other input (a dict,
or a sequence whose length is not two) is returned unchanged. -/
def convert_true_match : TrueMatch → TrueMatch
  | .seq [a, b] => .dict [fromToEntry "from" a, fromToEntry "to" b]
  | tm => tm

/-- Whether a value is a Python string (`isinstance(v, str)`). -/
def Val.isStr : Val → Bool
  | .vstr _ => true
  | _ => false

/-- An entity passed to `EntityMatchingModel.dump_entities`: either a plain
dict, or a `CogniteResource` whose `dump(camel_case=True)` yields the given
dict. -/
inductive Entity where
  | dict : Dict → Entity
  | res : Dict → Entity
deriving DecidableEq, Repr

/-- The per-entity body of `dump_entities`: a `CogniteResource` is dumped and
reduced to its string-valued fields plus the `id` field; a plain dict is
passed through unchanged (`... if isinstance(e, CogniteResource) else e`). -/
def dumpOne : Entity → Dict
  | .res d => d.filter (fun p => p.2.isStr || p.1 == "id")
  | .dict d => d

/-- `EntityMatchingModel.dump_entities`: `None` on a falsy (empty) entity
list, otherwise every entity mapped through `dumpOne`. -/
def dump_entities (entities : List Entity) : Option (List Dict) :=
  if entities.isEmpty then none else some (entities.map dumpOne)

/-- The mutable state of an `EntityMatchingModel`. -/
structure EntityMatchingModel where
  id : Option Val
  status : Option Val
  request_timestamp : Option Val
  start_timestamp : Option Val
  status_timestamp : Option Val
  error_message : Option Val
  classifier : Option Val
  feature_type : Option Val
  match_fields : Option Val
  model_type : Option Val
  name : Option Val
  description : Option Val
  external_id : Option Val
deriving DecidableEq, Repr

/-- `EntityMatchingModel.update_status` applied to one poll response: the same
overwriting discipline as `ContextualizationJob.update_status`, without the
result cache. -/
def EntityMatchingModel.update_status (m : EntityMatchingModel) (data : Dict) :
    Option (EntityMatchingModel × Val) :=
  match Dict.get data "status" with
  | none => none
  | some st =>
    some ({ m with
      status := some st
      status_timestamp := Dict.get data "statusTimestamp"
      start_timestamp := Dict.get data "startTimestamp"
      request_timestamp := pyOr m.request_timestamp (Dict.get data "requestTimestamp")
      error_message := Dict.get data "errorMessage" }, st)

/-- `EntityMatchingModel.wait_for_completion` run against the list of
successive poll responses; structure identical to the job version, raising
`ModelFailedException(class name, self.id, self.error_message)` on `Failed`. -/
def EntityMatchingModel.wait_for_completion (klass : String) (m : EntityMatchingModel) :
    List Dict → Option (Except ModelFailedException (EntityMatchingModel × Nat))
  | [] => none
  | data :: rest =>
    match m.update_status data with
    | none => none
    | some (m', st) =>
      if st = Val.vstr "Queued" ∨ st = Val.vstr "Running" then
        match EntityMatchingModel.wait_for_completion klass m' rest with
        | none => none
        | some (Except.error e) => some (Except.error e)
        | some (Except.ok (m'', n)) => some (Except.ok (m'', n + 1))
      else if st = Val.vstr "Failed" then
        some (Except.error ⟨klass, m'.id, m'.error_message⟩)
      else
        some (Except.ok (m', 1))

/-- Modelled from the spec: the base-library loader `CogniteResource._load`
(from the non-experimental `cognite.client` package, not under `src/`)
constructs a fresh instance and assigns each snake-cased constructor field
from the corresponding camel-cased key of the response body. -/
def EntityMatchingModel.load (data : Dict) : EntityMatchingModel :=
  ⟨Dict.get data "id", Dict.get data "status", Dict.get data "requestTimestamp",
   Dict.get data "startTimestamp", Dict.get data "statusTimestamp",
   Dict.get data "errorMessage", Dict.get data "classifier",
   Dict.get data "featureType", Dict.get data "matchFields",
   Dict.get data "modelType", Dict.get data "name", Dict.get data "description",
   Dict.get data "externalId"⟩

/-- `EntityMatchingModel.refit`: converts each true match, forces completion
of `self` against the poll responses (mutating `self`'s status fields), posts
the refit request, and loads a new model from the `response` body.  The
successful outcome is the triple (mutated original, new loaded model,
converted true matches sent in the request body). -/
def EntityMatchingModel.refit (m : EntityMatchingModel) (true_matches : List TrueMatch)
    (polls : List Dict) (response : Dict) :
    Option (Except ModelFailedException (EntityMatchingModel × EntityMatchingModel × List TrueMatch)) :=
  let converted := true_matches.map convert_true_match
  match EntityMatchingModel.wait_for_completion "EntityMatchingModel" m polls with
  | none => none
  | some (Except.error e) => some (Except.error e)
  | some (Except.ok (m', _)) =>
    some (Except.ok (m', EntityMatchingModel.load response, converted))

/-- The `{"type": {"id": ..., "externalId": ..., "version": ...}}` reference
used by the asset type update operations. -/
structure TypeRef where
  id : Option Val
  externalId : Option Val
  version : Int
deriving DecidableEq, Repr

/-- One entry of `_update_object["types"]["put"]`: a type reference plus the
properties dict. -/
structure TypePutItem where
  type : TypeRef
  properties : Dict
deriving DecidableEq, Repr

/-- The `_update_object["types"]` sub-dict: optional `put` and `remove`
lists (absent until first used). -/
structure TypesUpdate where
  put : Option (List TypePutItem)
  remove : Option (List TypeRef)
deriving DecidableEq, Repr

/-- One entry of `_update_object["labels"]["put"|"remove"]`:
`{"externalId": ...}`. -/
structure LabelRef where
  externalId : Option Val
deriving DecidableEq, Repr

/-- The `_update_object["labels"]` sub-dict: optional `put` and `remove`
lists. -/
structure LabelsUpdate where
  put : Option (List LabelRef)
  remove : Option (List LabelRef)
deriving DecidableEq, Repr

/-- The slice of `AssetUpdate._update_object` touched by the structured
type/label operations. -/
structure AssetUpdate where
  types_update : Option TypesUpdate
  labels_update : Option LabelsUpdate
deriving DecidableEq, Repr

/-- The `AssetUpdate.types` property: reading it (the entry point of the
generic primitive set path) unconditionally raises. -/
def AssetUpdate.types (_u : AssetUpdate) : Except String AssetUpdate :=
  Except.error "Use the put_type and remove_type functions to handle type updates"

/-- The `AssetUpdate.labels` property: reading it unconditionally raises. -/
def AssetUpdate.labels (_u : AssetUpdate) : Except String AssetUpdate :=
  Except.error "Use the put_label and remove_label functions to handle label updates"

/-- `AssetUpdate.put_type`: creates the `types` sub-dict and its `put` list if
missing, then appends the `{"type": {...}, "properties": ...}` entry. -/
def AssetUpdate.put_type (u : AssetUpdate) (properties : Dict) (version : Int)
    (id : Option Val) (external_id : Option Val) : AssetUpdate :=
  let t := u.types_update.getD ⟨none, none⟩
  let lst := t.put.getD []
  { u with types_update := some { t with put := some (lst ++ [⟨⟨id, external_id, version⟩, properties⟩]) } }

/-- `AssetUpdate.remove_type`: creates the `types` sub-dict and its `remove`
list if missing, then appends the `{"id", "externalId", "version"}` entry. -/
def AssetUpdate.remove_type (u : AssetUpdate) (version : Int)
    (id : Option Val) (external_id : Option Val) : AssetUpdate :=
  let t := u.types_update.getD ⟨none, none⟩
  let lst := t.remove.getD []
  { u with types_update := some { t with remove := some (lst ++ [⟨id, external_id, version⟩]) } }

/-- `AssetUpdate.put_label`: creates the `labels` sub-dict and its `put` list
if missing, then appends `{"externalId": external_id}`. -/
def AssetUpdate.put_label (u : AssetUpdate) (external_id : Option Val) : AssetUpdate :=
  let t := u.labels_update.getD ⟨none, none⟩
  let lst := t.put.getD []
  { u with labels_update := some { t with put := some (lst ++ [⟨external_id⟩]) } }

/-- `AssetUpdate.remove_label`: creates the `labels` sub-dict and its `remove`
list if missing, then appends `{"externalId": external_id}`. -/
def AssetUpdate.remove_label (u : AssetUpdate) (external_id : Option Val) : AssetUpdate :=
  let t := u.labels_update.getD ⟨none, none⟩
  let lst := t.remove.getD []
  { u with labels_update := some { t with remove := some (lst ++ [⟨external_id⟩]) } }

/-- A related resource returned by a batched list call: an identity plus an
opaque body (resources are deduplicated by `resource.id` only). -/
structure Resource where
  id : Int
  body : Val
deriving DecidableEq, Repr

/-- The locked merge step of the worker closure `retrieve_and_deduplicate` in
`AssetList._retrieve_related_resources`: walk this batch's listed resources,
appending each one whose id is not in the shared `seen` set and recording its
id.  Returns this worker's uniquely-contributed resources and the updated
`seen` set. -/
def retrieve_and_deduplicate : List Resource → List Int → List Resource × List Int
  | [], seen => ([], seen)
  | r :: rs, seen =>
    if r.id ∈ seen then
      retrieve_and_deduplicate rs seen
    else
      let p := retrieve_and_deduplicate rs (r.id :: seen)
      (r :: p.1, p.2)

/-- The merge of all batch results into the final collection: each batch's
listed resources pass through the locked dedup step, threading the shared
`seen` set, and the final list concatenates the per-worker contributions.
The batch list is given in the (executor-dependent) order the workers reach
the critical section. -/
def mergeBatches : List (List Resource) → List Int → List Resource
  | [], _ => []
  | b :: bs, seen =>
    let p := retrieve_and_deduplicate b seen
    p.1 ++ mergeBatches bs p.2

/-- The chunking `ids[i : i + 100]` of the parent id list into contiguous
batches of size `_retrieve_chunk_size = 100` (the last batch may be shorter;
an empty id list yields zero batches). -/
def chunkIds : List Int → List (List Int)
  | [] => []
  | a :: l => List.take 100 (a :: l) :: chunkIds (List.drop 100 (a :: l))
termination_by ids => ids.length
decreasing_by
  simp only [List.drop_succ_cons, List.length_drop, List.length_cons]
  omega

/-- `AssetList._retrieve_related_resources`: the parent ids are chunked into
batches of 100, each batch is resolved to its related resources by the
collaborator's `list` call (`listFn`), and the per-batch results are merged
through the shared deduplicating accumulator, starting from an empty `seen`
set. -/
def _retrieve_related_resources (parent_ids : List Int) (listFn : List Int → List Resource) :
    List Resource :=
  mergeBatches ((chunkIds parent_ids).map listFn) []

/-- Claim C6: for every two-element ordered pair given as a true match,
refit normalization produces an object whose from-key is `fromExternalId`
when the first element is a string and `fromId` otherwise, and whose to-key
is `toExternalId` when the second element is a string and `toId` otherwise;
in particular `(101, "ext-5")` becomes `{"fromId": 101, "toExternalId":
"ext-5"}`; an entry already in object form is passed through unchanged. -/
theorem convert_true_match_pair_keys (a b : Val) (d : Dict) :
    convert_true_match (TrueMatch.seq [a, b]) =
      TrueMatch.dict [((if a.isStr then "fromExternalId" else "fromId"), a),
                      ((if b.isStr then "toExternalId" else "toId"), b)]
    ∧ convert_true_match (TrueMatch.dict d) = TrueMatch.dict d
    ∧ convert_true_match (TrueMatch.seq [Val.vint 101, Val.vstr "ext-5"]) =
      TrueMatch.dict [("fromId", Val.vint 101), ("toExternalId", Val.vstr "ext-5")] := by
  refine ⟨?_, rfl, by decide⟩
  cases a <;> cases b <;> simp [convert_true_match, fromToEntry, Val.isStr]

/-- Claim C10: for every input to true-match normalization that is neither a
dict nor a two-element sequence (for example a three-element tuple or an
empty list), `convert_true_match` returns the input unchanged without
raising any error. -/
theorem convert_true_match_other_passthrough (l : List Val) (h : l.length ≠ 2) :
    convert_true_match (TrueMatch.seq l) = TrueMatch.seq l := by
  match l with
  | [] => rfl
  | [a] => rfl
  | [a, b] => exact absurd rfl h
  | a :: b :: c :: rest => rfl

/-- Witness for claim C10: the three-element sequence `(1, 2, 3)` has length
different from two and is forwarded unchanged. -/
theorem convert_true_match_other_passthrough_witness :
    ([Val.vint 1, Val.vint 2, Val.vint 3].length ≠ 2)
    ∧ convert_true_match (TrueMatch.seq [Val.vint 1, Val.vint 2, Val.vint 3]) =
        TrueMatch.seq [Val.vint 1, Val.vint 2, Val.vint 3] :=
  ⟨by decide, convert_true_match_other_passthrough [Val.vint 1, Val.vint 2, Val.vint 3] (by decide)⟩

/-- Claim C9: for every `AssetUpdate`, reading the generic `types` or
`labels` update property fails with the unsupported-field-update error,
while the dedicated operations succeed and record their entries under the
correct bucket: `put_type` under `types.put`, `remove_type` under
`types.remove`, `put_label` under `labels.put`, `remove_label` under
`labels.remove`, in each case appending to the existing bucket and leaving
the other structured field untouched. -/
theorem asset_update_structured_guard :
    (∀ u : AssetUpdate,
      u.types = Except.error "Use the put_type and remove_type functions to handle type updates")
    ∧ (∀ u : AssetUpdate,
      u.labels = Except.error "Use the put_label and remove_label functions to handle label updates")
    ∧ (∀ (u : AssetUpdate) (props : Dict) (ver : Int) (i e : Option Val),
        (u.put_type props ver i e).types_update =
          some ⟨some (((u.types_update.getD ⟨none, none⟩).put.getD []) ++ [⟨⟨i, e, ver⟩, props⟩]),
                (u.types_update.getD ⟨none, none⟩).remove⟩
        ∧ (u.put_type props ver i e).labels_update = u.labels_update)
    ∧ (∀ (u : AssetUpdate) (ver : Int) (i e : Option Val),
        (u.remove_type ver i e).types_update =
          some ⟨(u.types_update.getD ⟨none, none⟩).put,
                some (((u.types_update.getD ⟨none, none⟩).remove.getD []) ++ [⟨i, e, ver⟩])⟩
        ∧ (u.remove_type ver i e).labels_update = u.labels_update)
    ∧ (∀ (u : AssetUpdate) (e : Option Val),
        (u.put_label e).labels_update =
          some ⟨some (((u.labels_update.getD ⟨none, none⟩).put.getD []) ++ [⟨e⟩]),
                (u.labels_update.getD ⟨none, none⟩).remove⟩
        ∧ (u.put_label e).types_update = u.types_update)
    ∧ (∀ (u : AssetUpdate) (e : Option Val),
        (u.remove_label e).labels_update =
          some ⟨(u.labels_update.getD ⟨none, none⟩).put,
                some (((u.labels_update.getD ⟨none, none⟩).remove.getD []) ++ [⟨e⟩])⟩
        ∧ (u.remove_label e).types_update = u.types_update) :=
  ⟨fun _ => rfl, fun _ => rfl,
   fun _ _ _ _ _ => ⟨rfl, rfl⟩, fun _ _ _ _ => ⟨rfl, rfl⟩,
   fun _ _ => ⟨rfl, rfl⟩, fun _ _ => ⟨rfl, rfl⟩⟩

/-- Counterexample to claim C1: a handle whose `start_timestamp` and
`status_timestamp` are already non-null, polled with a response that omits
`startTimestamp`/`statusTimestamp`, has both fields reset to null by
`update_status`. -/
theorem update_status_resets_timestamps_cex :
    (update_status ContextualizationJob_COMMON_FIELDS
        ⟨some (Val.vint 1), some (Val.vstr "Running"), none,
         some (Val.vint 5), some (Val.vint 6), none, none⟩
        [("status", Val.vstr "Running")]).map
        (fun p => (p.1.start_timestamp, p.1.status_timestamp))
      = some (none, none)
    ∧ (some (Val.vint 5) : Option Val) ≠ none
    ∧ (some (Val.vint 6) : Option Val) ≠ none := by
  refine ⟨by decide, by decide, by decide⟩

/-- Claim C1 as amended: on both `ContextualizationJob.update_status` and
`EntityMatchingModel.update_status`, only `request_timestamp` progresses
monotonically — once truthy it is never overwritten — while
`start_timestamp` and `status_timestamp` are simply overwritten with the
poll response's `startTimestamp`/`statusTimestamp` values and become null
when the response omits them. -/
theorem update_status_timestamp_discipline :
    (∀ (common : List String) (j : ContextualizationJob) (data : Dict)
        (j' : ContextualizationJob) (st : Val),
        update_status common j data = some (j', st) →
        (optTruthy j.request_timestamp = true → j'.request_timestamp = j.request_timestamp)
        ∧ j'.start_timestamp = Dict.get data "startTimestamp"
        ∧ j'.status_timestamp = Dict.get data "statusTimestamp")
    ∧ (∀ (m : EntityMatchingModel) (data : Dict) (m' : EntityMatchingModel) (st : Val),
        EntityMatchingModel.update_status m data = some (m', st) →
        (optTruthy m.request_timestamp = true → m'.request_timestamp = m.request_timestamp)
        ∧ m'.start_timestamp = Dict.get data "startTimestamp"
        ∧ m'.status_timestamp = Dict.get data "statusTimestamp") := by
  constructor
  · intro common j data j' st h
    unfold update_status at h
    cases hst : Dict.get data "status" <;> rw [hst] at h
    · exact absurd h (by simp)
    · simp only [Option.some.injEq, Prod.mk.injEq] at h
      obtain ⟨hj, -⟩ := h
      subst hj
      refine ⟨fun ht => ?_, rfl, rfl⟩
      simp [pyOr, ht]
  · intro m data m' st h
    unfold EntityMatchingModel.update_status at h
    cases hst : Dict.get data "status" <;> rw [hst] at h
    · exact absurd h (by simp)
    · simp only [Option.some.injEq, Prod.mk.injEq] at h
      obtain ⟨hm, -⟩ := h
      subst hm
      refine ⟨fun ht => ?_, rfl, rfl⟩
      simp [pyOr, ht]

/-- Witness for the amended claim C1: a job whose `request_timestamp` is
already the truthy value `3`, polled with a response carrying only a status
and a new `requestTimestamp`, keeps its old `request_timestamp` while the
omitted `startTimestamp`/`statusTimestamp` come back null. -/
theorem update_status_timestamp_discipline_witness :
    (optTruthy (some (Val.vint 3)) = true →
      (⟨some (Val.vint 1), some (Val.vstr "Completed"), some (Val.vint 3),
        none, none, none, some []⟩ : ContextualizationJob).request_timestamp
        = (⟨some (Val.vint 1), none, some (Val.vint 3),
            none, none, none, none⟩ : ContextualizationJob).request_timestamp)
    ∧ (⟨some (Val.vint 1), some (Val.vstr "Completed"), some (Val.vint 3),
        none, none, none, some []⟩ : ContextualizationJob).start_timestamp
        = Dict.get [("status", Val.vstr "Completed")] "startTimestamp"
    ∧ (⟨some (Val.vint 1), some (Val.vstr "Completed"), some (Val.vint 3),
        none, none, none, some []⟩ : ContextualizationJob).status_timestamp
        = Dict.get [("status", Val.vstr "Completed")] "statusTimestamp" :=
  update_status_timestamp_discipline.1 ContextualizationJob_COMMON_FIELDS
    ⟨some (Val.vint 1), none, some (Val.vint 3), none, none, none, none⟩
    [("status", Val.vstr "Completed")]
    ⟨some (Val.vint 1), some (Val.vstr "Completed"), some (Val.vint 3),
     none, none, none, some []⟩
    (Val.vstr "Completed") (by decide)

/-- Claim C2, evaluated at the failing input: the subclass constant
`EntityMatchingPipelineRun._COMMON_FIELDS` is built with set intersection
(`&`) instead of union, hence is empty, so a pipeline-run poll response
keeps every common status field in the cached result payload, while the base
`ContextualizationJob` correctly excludes them all. -/
theorem pipeline_run_common_fields_bug :
    EntityMatchingPipelineRun_COMMON_FIELDS = ([] : List String)
    ∧ (update_status EntityMatchingPipelineRun_COMMON_FIELDS
          (ContextualizationJob.fresh (some (Val.vint 3)))
          [("status", Val.vstr "Completed"), ("jobId", Val.vint 3)]).map (fun p => p.1.result)
        = some (some [("status", Val.vstr "Completed"), ("jobId", Val.vint 3)])
    ∧ (update_status ContextualizationJob_COMMON_FIELDS
          (ContextualizationJob.fresh (some (Val.vint 3)))
          [("status", Val.vstr "Completed"), ("jobId", Val.vint 3)]).map (fun p => p.1.result)
        = some (some []) := by
  refine ⟨by decide, by decide, by decide⟩

/-- Claim C3: for any handle whose successive polls report the statuses
`Queued, Running, Failed`, `wait_for_completion` raises
`ModelFailedException` carrying the handle's class name, the handle's id,
and the error message of the final poll; for `Queued` followed by any
terminal status that is not `Failed` (such as `Completed`), it returns
normally.  Both the `ContextualizationJob` and the `EntityMatchingModel`
poll loops satisfy the contract. -/
theorem wait_for_completion_terminal_contract :
    (∀ (common : List String) (klass : String) (j : ContextualizationJob) (p1 p2 p3 : Dict),
        Dict.get p1 "status" = some (Val.vstr "Queued") →
        Dict.get p2 "status" = some (Val.vstr "Running") →
        Dict.get p3 "status" = some (Val.vstr "Failed") →
        wait_for_completion common klass j [p1, p2, p3]
          = some (Except.error ⟨klass, j.job_id, Dict.get p3 "errorMessage"⟩))
    ∧ (∀ (common : List String) (klass : String) (j : ContextualizationJob) (p1 p2 : Dict) (v : Val),
        Dict.get p1 "status" = some (Val.vstr "Queued") →
        Dict.get p2 "status" = some v →
        v ≠ Val.vstr "Queued" → v ≠ Val.vstr "Running" → v ≠ Val.vstr "Failed" →
        (wait_for_completion common klass j [p1, p2]).map (Except.map (fun p => p.2))
          = some (Except.ok 2))
    ∧ (∀ (klass : String) (m : EntityMatchingModel) (p1 p2 p3 : Dict),
        Dict.get p1 "status" = some (Val.vstr "Queued") →
        Dict.get p2 "status" = some (Val.vstr "Running") →
        Dict.get p3 "status" = some (Val.vstr "Failed") →
        EntityMatchingModel.wait_for_completion klass m [p1, p2, p3]
          = some (Except.error ⟨klass, m.id, Dict.get p3 "errorMessage"⟩))
    ∧ (∀ (klass : String) (m : EntityMatchingModel) (p1 p2 : Dict) (v : Val),
        Dict.get p1 "status" = some (Val.vstr "Queued") →
        Dict.get p2 "status" = some v →
        v ≠ Val.vstr "Queued" → v ≠ Val.vstr "Running" → v ≠ Val.vstr "Failed" →
        (EntityMatchingModel.wait_for_completion klass m [p1, p2]).map (Except.map (fun p => p.2))
          = some (Except.ok 2)) := by
  refine ⟨?_, ?_, ?_, ?_⟩
  · intro common klass j p1 p2 p3 h1 h2 h3
    simp [wait_for_completion, update_status, h1, h2, h3]
  · intro common klass j p1 p2 v h1 h2 hq hr hf
    simp [wait_for_completion, update_status, Except.map, h1, h2, hq, hr, hf]
  · intro klass m p1 p2 p3 h1 h2 h3
    simp [EntityMatchingModel.wait_for_completion, EntityMatchingModel.update_status, h1, h2, h3]
  · intro klass m p1 p2 v h1 h2 hq hr hf
    simp [EntityMatchingModel.wait_for_completion, EntityMatchingModel.update_status,
      Except.map, h1, h2, hq, hr, hf]

/-- Witness for claim C3: a concrete job with id 9 polled through
`Queued, Running, Failed` with final error message `"boom"` raises the
exception with exactly that class name, id and message, and polled through
`Queued, Completed` returns normally. -/
theorem wait_for_completion_terminal_contract_witness :
    (wait_for_completion ContextualizationJob_COMMON_FIELDS "ContextualizationJob"
        (ContextualizationJob.fresh (some (Val.vint 9)))
        [[("status", Val.vstr "Queued")], [("status", Val.vstr "Running")],
         [("status", Val.vstr "Failed"), ("errorMessage", Val.vstr "boom")]]
      = some (Except.error ⟨"ContextualizationJob", some (Val.vint 9),
          Dict.get [("status", Val.vstr "Failed"), ("errorMessage", Val.vstr "boom")] "errorMessage"⟩))
    ∧ ((wait_for_completion ContextualizationJob_COMMON_FIELDS "ContextualizationJob"
        (ContextualizationJob.fresh (some (Val.vint 9)))
        [[("status", Val.vstr "Queued")], [("status", Val.vstr "Completed")]]).map
          (Except.map (fun p => p.2))
      = some (Except.ok 2)) :=
  ⟨wait_for_completion_terminal_contract.1 ContextualizationJob_COMMON_FIELDS
      "ContextualizationJob" (ContextualizationJob.fresh (some (Val.vint 9)))
      [("status", Val.vstr "Queued")] [("status", Val.vstr "Running")]
      [("status", Val.vstr "Failed"), ("errorMessage", Val.vstr "boom")]
      (by decide) (by decide) (by decide),
   wait_for_completion_terminal_contract.2.1 ContextualizationJob_COMMON_FIELDS
      "ContextualizationJob" (ContextualizationJob.fresh (some (Val.vint 9)))
      [("status", Val.vstr "Queued")] [("status", Val.vstr "Completed")]
      (Val.vstr "Completed")
      (by decide) (by decide) (by decide) (by decide) (by decide)⟩

/-- Counterexample to claim C4: a handle whose first `.result` resolution
produced the empty payload (a poll response with only common fields) polls
again on the second `.result` access — one further `update_status` call is
issued instead of none. -/
theorem result_empty_payload_repolls_cex :
    (result_access ContextualizationJob_COMMON_FIELDS "ContextualizationJob"
        (ContextualizationJob.fresh (some (Val.vint 1)))
        [[("status", Val.vstr "Completed")]]
      = some (Except.ok
          (⟨some (Val.vint 1), some (Val.vstr "Completed"), none, none, none, none, some []⟩,
           some [], 1)))
    ∧ (result_access ContextualizationJob_COMMON_FIELDS "ContextualizationJob"
        ⟨some (Val.vint 1), some (Val.vstr "Completed"), none, none, none, none, some []⟩
        [[("status", Val.vstr "Completed")]]
      = some (Except.ok
          (⟨some (Val.vint 1), some (Val.vstr "Completed"), none, none, none, none, some []⟩,
           some [], 1)))
    ∧ (1 : Nat) ≠ 0 := by
  refine ⟨rfl, rfl, by decide⟩

/-- Claim C4 as amended: once a `.result` access has resolved to a truthy
(non-empty) payload, any later `.result` access issues zero further
`update_status` polls and returns the identical handle and payload. -/
theorem result_cached_second_access :
    ∀ (common : List String) (klass : String) (j : ContextualizationJob)
      (polls polls' : List Dict) (j1 : ContextualizationJob) (res : Option Dict) (n : Nat),
      result_access common klass j polls = some (Except.ok (j1, res, n)) →
      resultTruthy res = true →
      result_access common klass j1 polls' = some (Except.ok (j1, res, 0)) := by
  intro common klass j polls polls' j1 res n h hres
  unfold result_access at h
  by_cases hb : resultTruthy j.result
  · rw [if_pos hb] at h
    simp only [Option.some.injEq, Except.ok.injEq, Prod.mk.injEq] at h
    obtain ⟨h1, h2, -⟩ := h
    subst h1
    subst h2
    unfold result_access
    rw [if_pos hb]
  · rw [if_neg hb] at h
    cases hw : wait_for_completion common klass j polls <;> rw [hw] at h
    · exact absurd h (by simp)
    · rename_i r
      cases r with
      | error e => simp at h
      | ok p =>
        simp only [Option.some.injEq, Except.ok.injEq, Prod.mk.injEq] at h
        obtain ⟨h1, h2, -⟩ := h
        subst h1
        subst h2
        unfold result_access
        rw [if_pos hres]

/-- Witness for the amended claim C4: a handle already holding the truthy
payload `{"items": 1}` returns it again with zero polls issued. -/
theorem result_cached_second_access_witness :
    result_access ContextualizationJob_COMMON_FIELDS "ContextualizationJob"
        ⟨some (Val.vint 1), some (Val.vstr "Completed"), none, none, none, none,
         some [("items", Val.vint 1)]⟩ []
      = some (Except.ok
          (⟨some (Val.vint 1), some (Val.vstr "Completed"), none, none, none, none,
            some [("items", Val.vint 1)]⟩,
           some [("items", Val.vint 1)], 0)) :=
  result_cached_second_access ContextualizationJob_COMMON_FIELDS "ContextualizationJob"
    ⟨some (Val.vint 1), some (Val.vstr "Completed"), none, none, none, none,
     some [("items", Val.vint 1)]⟩ [] []
    ⟨some (Val.vint 1), some (Val.vstr "Completed"), none, none, none, none,
     some [("items", Val.vint 1)]⟩
    (some [("items", Val.vint 1)]) 0 rfl (by decide)

/-- Counterexample to claim C7: the plain-dict entity
`{id: 7, name: "pump", score: 9}` passes through `dump_entities` with the
non-string, non-id field `score` retained, instead of being reduced to
`{id: 7, name: "pump"}`. -/
theorem dump_entities_dict_unfiltered_cex :
    dump_entities [Entity.dict [("id", Val.vint 7), ("name", Val.vstr "pump"), ("score", Val.vint 9)]]
      ≠ some [[("id", Val.vint 7), ("name", Val.vstr "pump")]]
    ∧ dump_entities [Entity.dict [("id", Val.vint 7), ("name", Val.vstr "pump"), ("score", Val.vint 9)]]
      = some [[("id", Val.vint 7), ("name", Val.vstr "pump"), ("score", Val.vint 9)]] := by
  refine ⟨by decide, rfl⟩

/-- Claim C7 as amended: `dump_entities` reduces an entity given as a
resource object to exactly its string-valued fields plus the `id` field,
dropping every other field silently, but an entity given as a plain dict is
passed through unchanged with all its fields retained. -/
theorem dump_entities_filters_resources :
    ∀ (d : Dict) (es : List Entity),
      dump_entities (Entity.res d :: es)
        = some (List.filter (fun p => p.2.isStr || p.1 == "id") d :: es.map dumpOne)
      ∧ dump_entities (Entity.dict d :: es) = some (d :: es.map dumpOne)
      ∧ (∀ (k : String) (v : Val),
          (k, v) ∈ List.filter (fun p => p.2.isStr || p.1 == "id") d ↔
            ((k, v) ∈ d ∧ (v.isStr = true ∨ k = "id"))) := by
  intro d es
  refine ⟨rfl, rfl, ?_⟩
  intro k v
  simp [List.mem_filter]

/-- Fields of an `EntityMatchingModel` that `update_status` never touches:
one poll step preserves the identity and fitted-state attributes. -/
theorem em_update_status_preserves (m : EntityMatchingModel) (data : Dict)
    (m' : EntityMatchingModel) (st : Val)
    (h : m.update_status data = some (m', st)) :
    m'.id = m.id ∧ m'.classifier = m.classifier ∧ m'.feature_type = m.feature_type
    ∧ m'.match_fields = m.match_fields ∧ m'.model_type = m.model_type
    ∧ m'.name = m.name ∧ m'.description = m.description ∧ m'.external_id = m.external_id := by
  unfold EntityMatchingModel.update_status at h
  cases hst : Dict.get data "status" <;> rw [hst] at h
  · exact absurd h (by simp)
  · simp only [Option.some.injEq, Prod.mk.injEq] at h
    obtain ⟨hm, -⟩ := h
    subst hm
    exact ⟨rfl, rfl, rfl, rfl, rfl, rfl, rfl, rfl⟩

/-- The whole poll loop preserves the identity and fitted-state attributes
whenever it returns successfully. -/
theorem em_wait_preserves (klass : String) :
    ∀ (polls : List Dict) (m m' : EntityMatchingModel) (n : Nat),
      EntityMatchingModel.wait_for_completion klass m polls = some (Except.ok (m', n)) →
      m'.id = m.id ∧ m'.classifier = m.classifier ∧ m'.feature_type = m.feature_type
      ∧ m'.match_fields = m.match_fields ∧ m'.model_type = m.model_type
      ∧ m'.name = m.name ∧ m'.description = m.description ∧ m'.external_id = m.external_id := by
  intro polls
  induction polls with
  | nil => intro m m' n h; exact absurd h (by simp [EntityMatchingModel.wait_for_completion])
  | cons data rest ih =>
    intro m m' n h
    unfold EntityMatchingModel.wait_for_completion at h
    cases hu : m.update_status data <;> rw [hu] at h
    · exact absurd h (by simp)
    · rename_i p
      obtain ⟨m1, st⟩ := p
      dsimp only at h
      have hpres := em_update_status_preserves m data m1 st hu
      by_cases hterm : st = Val.vstr "Queued" ∨ st = Val.vstr "Running"
      · rw [if_pos hterm] at h
        cases hw : EntityMatchingModel.wait_for_completion klass m1 rest <;> rw [hw] at h
        · exact absurd h (by simp)
        · rename_i r
          cases r with
          | error e => simp at h
          | ok q =>
            obtain ⟨m2, n2⟩ := q
            simp only [Option.some.injEq, Except.ok.injEq, Prod.mk.injEq] at h
            obtain ⟨hm2, -⟩ := h
            subst hm2
            have hrest := ih m1 m2 n2 hw
            exact ⟨hrest.1.trans hpres.1, hrest.2.1.trans hpres.2.1,
              hrest.2.2.1.trans hpres.2.2.1, hrest.2.2.2.1.trans hpres.2.2.2.1,
              hrest.2.2.2.2.1.trans hpres.2.2.2.2.1, hrest.2.2.2.2.2.1.trans hpres.2.2.2.2.2.1,
              hrest.2.2.2.2.2.2.1.trans hpres.2.2.2.2.2.2.1,
              hrest.2.2.2.2.2.2.2.trans hpres.2.2.2.2.2.2.2⟩
      · rw [if_neg hterm] at h
        by_cases hfail : st = Val.vstr "Failed"
        · rw [if_pos hfail] at h
          simp at h
        · rw [if_neg hfail] at h
          simp only [Option.some.injEq, Except.ok.injEq, Prod.mk.injEq] at h
          obtain ⟨hm1, -⟩ := h
          subst hm1
          exact hpres

/-- Claim C8 as amended: `refit` returns a new model instance loaded from
the server response (together with the converted true matches sent in the
request body), and the original model's identity and fitted-state fields
(`id`, `classifier`, `feature_type`, `match_fields`, `model_type`, `name`,
`description`, `external_id`) are unchanged; the original's status fields,
however, may be rewritten by the forced completion wait. -/
theorem refit_returns_new_model :
    ∀ (m : EntityMatchingModel) (tms : List TrueMatch) (polls : List Dict) (response : Dict)
      (m' newm : EntityMatchingModel) (conv : List TrueMatch),
      EntityMatchingModel.refit m tms polls response = some (Except.ok (m', newm, conv)) →
      newm = EntityMatchingModel.load response
      ∧ conv = tms.map convert_true_match
      ∧ m'.id = m.id ∧ m'.classifier = m.classifier ∧ m'.feature_type = m.feature_type
      ∧ m'.match_fields = m.match_fields ∧ m'.model_type = m.model_type
      ∧ m'.name = m.name ∧ m'.description = m.description ∧ m'.external_id = m.external_id := by
  intro m tms polls response m' newm conv h
  unfold EntityMatchingModel.refit at h
  cases hw : EntityMatchingModel.wait_for_completion "EntityMatchingModel" m polls <;>
    rw [hw] at h
  · exact absurd h (by simp)
  · rename_i r
    cases r with
    | error e => simp at h
    | ok q =>
      obtain ⟨m1, n1⟩ := q
      simp only [Option.some.injEq, Except.ok.injEq, Prod.mk.injEq] at h
      obtain ⟨hm1, hload, hconv⟩ := h
      subst hm1
      subst hload
      subst hconv
      exact ⟨rfl, rfl, em_wait_preserves "EntityMatchingModel" polls m m1 n1 hw⟩

/-- The model fixture for the claim C8 counterexample: freshly created,
still `Queued`, with id 1. -/
def emQueued : EntityMatchingModel :=
  ⟨some (Val.vint 1), some (Val.vstr "Queued"), none, none, none, none,
   none, none, none, none, none, none, none⟩

/-- The same model after the poll inside `refit` reports `Completed`. -/
def emCompleted : EntityMatchingModel :=
  ⟨some (Val.vint 1), some (Val.vstr "Completed"), none, none, none, none,
   none, none, none, none, none, none, none⟩

/-- Counterexample to claim C8: refitting a still-`Queued` model whose poll
reports `Completed` leaves the original handle with a different `status`
than before the call — `refit` does mutate the receiver's status fields. -/
theorem refit_mutates_original_cex :
    EntityMatchingModel.refit emQueued [] [[("status", Val.vstr "Completed")]]
        [("id", Val.vint 2)]
      = some (Except.ok (emCompleted, EntityMatchingModel.load [("id", Val.vint 2)], []))
    ∧ emCompleted.status ≠ emQueued.status := by
  refine ⟨rfl, by decide⟩

/-- Witness for the amended claim C8, instantiated at the counterexample
fixture: the new model is exactly the one loaded from the response, and the
original's identity and fitted-state fields are unchanged. -/
theorem refit_returns_new_model_witness :
    EntityMatchingModel.load [("id", Val.vint 2)] = EntityMatchingModel.load [("id", Val.vint 2)]
    ∧ ([] : List TrueMatch) = List.map convert_true_match []
    ∧ emCompleted.id = emQueued.id ∧ emCompleted.classifier = emQueued.classifier
    ∧ emCompleted.feature_type = emQueued.feature_type
    ∧ emCompleted.match_fields = emQueued.match_fields
    ∧ emCompleted.model_type = emQueued.model_type ∧ emCompleted.name = emQueued.name
    ∧ emCompleted.description = emQueued.description
    ∧ emCompleted.external_id = emQueued.external_id :=
  refit_returns_new_model emQueued [] [[("status", Val.vstr "Completed")]]
    [("id", Val.vint 2)] emCompleted (EntityMatchingModel.load [("id", Val.vint 2)]) [] rfl

/-- An id appears among a worker's uniquely-contributed resources exactly
when some resource of its batch carries it and it was not already seen. -/
theorem rad_out_mem (rs : List Resource) (seen : List Int) (i : Int) :
    i ∈ (retrieve_and_deduplicate rs seen).1.map Resource.id ↔
      (i ∈ rs.map Resource.id ∧ i ∉ seen) := by
  induction rs generalizing seen with
  | nil => simp [retrieve_and_deduplicate]
  | cons r rs ih =>
    simp only [retrieve_and_deduplicate]
    by_cases h : r.id ∈ seen
    · rw [if_pos h, ih]
      simp only [List.map_cons, List.mem_cons]
      constructor
      · rintro ⟨hm, hn⟩
        exact ⟨Or.inr hm, hn⟩
      · rintro ⟨hm | hm, hn⟩
        · exact absurd (hm ▸ h) hn
        · exact ⟨hm, hn⟩
    · rw [if_neg h]
      simp only [List.map_cons, List.mem_cons, ih, List.mem_cons, not_or]
      by_cases hi : i = r.id
      · subst hi
        simp [h]
      · simp [hi]

/-- After a worker's merge step the shared seen set holds exactly the ids it
held before plus the ids listed in that worker's batch. -/
theorem rad_seen_mem (rs : List Resource) (seen : List Int) (i : Int) :
    i ∈ (retrieve_and_deduplicate rs seen).2 ↔
      (i ∈ rs.map Resource.id ∨ i ∈ seen) := by
  induction rs generalizing seen with
  | nil => simp [retrieve_and_deduplicate]
  | cons r rs ih =>
    simp only [retrieve_and_deduplicate]
    by_cases h : r.id ∈ seen
    · rw [if_pos h, ih]
      simp only [List.map_cons, List.mem_cons]
      constructor
      · rintro (hm | hn)
        · exact Or.inl (Or.inr hm)
        · exact Or.inr hn
      · rintro (⟨hm | hm⟩ | hn)
        · exact Or.inr (hm ▸ h)
        · exact Or.inl hm
        · exact Or.inr hn
    · rw [if_neg h]
      simp only [List.map_cons, List.mem_cons, ih, List.mem_cons]
      tauto

/-- A single worker's contribution has pairwise-distinct resource ids. -/
theorem rad_out_nodup (rs : List Resource) (seen : List Int) :
    ((retrieve_and_deduplicate rs seen).1.map Resource.id).Nodup := by
  induction rs generalizing seen with
  | nil => simp [retrieve_and_deduplicate]
  | cons r rs ih =>
    simp only [retrieve_and_deduplicate]
    by_cases h : r.id ∈ seen
    · rw [if_pos h]
      exact ih seen
    · rw [if_neg h]
      simp only [List.map_cons, List.nodup_cons]
      refine ⟨?_, ih (r.id :: seen)⟩
      intro hmem
      rw [rad_out_mem] at hmem
      exact hmem.2 (List.mem_cons_self r.id seen)

/-- The merged sequence never lists an id it was told is already seen, and
lists exactly the batch-reported ids beyond those. -/
theorem mergeBatches_mem (bs : List (List Resource)) (seen : List Int) (i : Int) :
    i ∈ (mergeBatches bs seen).map Resource.id ↔
      ((∃ b ∈ bs, i ∈ b.map Resource.id) ∧ i ∉ seen) := by
  induction bs generalizing seen with
  | nil => simp [mergeBatches]
  | cons b bs ih =>
    simp only [mergeBatches, List.map_append, List.mem_append, rad_out_mem, ih, rad_seen_mem]
    constructor
    · rintro (⟨hm, hn⟩ | ⟨⟨b', hb', hm⟩, hn⟩)
      · exact ⟨⟨b, List.mem_cons_self b bs, hm⟩, hn⟩
      · rw [not_or] at hn
        exact ⟨⟨b', List.mem_cons_of_mem b hb', hm⟩, hn.2⟩
    · rintro ⟨⟨b', hb', hm⟩, hn⟩
      rcases List.mem_cons.mp hb' with hb | hb
      · exact Or.inl ⟨hb ▸ hm, hn⟩
      · by_cases hfirst : i ∈ b.map Resource.id
        · exact Or.inl ⟨hfirst, hn⟩
        · exact Or.inr ⟨⟨b', hb, hm⟩, by rw [not_or]; exact ⟨hfirst, hn⟩⟩

/-- The merged sequence has pairwise-distinct resource ids whatever the
batches report and whatever seen set it starts from. -/
theorem mergeBatches_nodup (bs : List (List Resource)) (seen : List Int) :
    ((mergeBatches bs seen).map Resource.id).Nodup := by
  induction bs generalizing seen with
  | nil => simp [mergeBatches]
  | cons b bs ih =>
    simp only [mergeBatches, List.map_append]
    rw [List.nodup_append]
    refine ⟨rad_out_nodup b seen, ih _, ?_⟩
    intro i hi hib
    rw [rad_out_mem] at hi
    rw [mergeBatches_mem] at hib
    exact hib.2 ((rad_seen_mem b seen i).mpr (Or.inl hi.1))

/-- Claim C5: for every assignment of related resources to parent batches
and every order in which the workers reach the locked merge step, the merged
sequence contains each related-resource identity at most once; an identity
is present exactly when some batch reported it, so membership does not
depend on the processing order.  In particular the full resolver
`_retrieve_related_resources`, for every parent id list and every
collaborator `list` function, returns a sequence of pairwise-distinct
resource ids. -/
theorem retrieve_related_resources_dedup :
    (∀ bs : List (List Resource),
      ((mergeBatches bs []).map Resource.id).Nodup
      ∧ (∀ i : Int, i ∈ (mergeBatches bs []).map Resource.id ↔
          ∃ b ∈ bs, i ∈ b.map Resource.id))
    ∧ (∀ (parent_ids : List Int) (listFn : List Int → List Resource),
        ((_retrieve_related_resources parent_ids listFn).map Resource.id).Nodup) := by
  constructor
  · intro bs
    refine ⟨mergeBatches_nodup bs [], ?_⟩
    intro i
    rw [mergeBatches_mem]
    simp
  · intro parent_ids listFn
    exact mergeBatches_nodup _ []

end CogniteExperimental
